import Mathlib

/-!
Shallow embedding of the MonitorFile repository (lbussy/MonitorFile).

The repository contains:
  * a threaded watcher: `monitorfile.hpp` (class `MonitorFile` with the
    `MonitorState` enum) and `monitorfile.cpp`.  The `.cpp` dump holds two
    revisions of the implementation; the current one (the one implementing
    `setPriority`, which the current header declares, and initializing
    `last_reported_time` from `org_time`) appears first, the prior revision
    (default-initialized `last_reported_time`, `first_check_done` flag)
    second.  Both monitor-loop bodies are embedded below
    (`monitorLoopTick` for the current revision, `monitorLoopTickOld` for
    the prior one).
  * a legacy synchronous header-only variant (class `MonitorFile` with
    `filemon` / `changed` / `check_file`), embedded as `LegacyMonitor`.

Timestamps (`fs::file_time_type`) are modelled as `Nat`; a
default-constructed `fs::file_time_type` is the clock epoch, modelled as
`0`.  Filesystem reads are modelled by an environment `String → Option Nat`
giving, per path, `none` when `fs::exists` is `false` and `some t` when the
file exists with last-write time `t`.  A C++ exception escaping a function
is modelled as `Except.error`.
-/

/-- The `MonitorState` enum of `monitorfile.hpp`. -/
inductive MonitorState where
  | NOT_MONITORING
  | MONITORING
  | FILE_NOT_FOUND
  | FILE_CHANGED
deriving DecidableEq, Repr

namespace MonitorFile

/-- One poll's view of the filesystem inside `monitor_loop`:
  * `absent`: `fs::exists(file_name)` returned `false`;
  * `vanished`: `fs::exists(file_name)` returned `true`, but the file was
    gone by the time `fs::last_write_time(file_name)` ran (the loop sleeps
    100 ms in between), so `fs::last_write_time` raises
    `std::filesystem::filesystem_error`;
  * `present t`: the file existed throughout and `fs::last_write_time`
    returned `t`. -/
inductive Obs where
  | absent
  | vanished
  | present (t : Nat)
deriving DecidableEq, Repr

/-- Loop-local state of the current `monitor_loop` revision
(`monitorfile.cpp` lines 169-245): the members `org_time`,
`stable_checks` and the atomic `monitoring_state` of the `MonitorFile`
object, plus the locals `last_reported_time` and `change_detected`. -/
structure LoopState where
  orgTime : Nat
  lastReported : Nat
  changeDetected : Bool
  stableChecks : Nat
  monitoringState : MonitorState
deriving DecidableEq, Repr

/-- Loop-local state of the prior `monitor_loop` revision
(`monitorfile.cpp` lines 381-439): locals `last_reported_time`
(default-constructed, i.e. the epoch `0`) and `first_check_done`. -/
structure LoopStateOld where
  orgTime : Nat
  lastReported : Nat
  firstCheckDone : Bool
  stableChecks : Nat
  monitoringState : MonitorState
deriving DecidableEq, Repr

/-- Observable outcome of one poll iteration: the state afterwards, the
sequence of `monitoring_state.store(...)` calls the iteration performed
(in order), and whether the user callback was invoked. -/
structure TickResult (σ : Type) where
  state : σ
  stores : List MonitorState
  callbackInvoked : Bool
deriving DecidableEq, Repr

/-- One iteration body of the current `monitor_loop` (`monitorfile.cpp`
lines 189-243), entered after the interruptible wait expired without a
stop request.  `callbackSet` says whether the `callback` member is
non-null.  `Obs.vanished` yields `Except.error`: the loop has no
try/catch, so the `filesystem_error` raised by `fs::last_write_time`
propagates out of `monitor_loop` (on a `std::thread` this reaches
`std::terminate`). -/
def monitorLoopTick (callbackSet : Bool) (s : LoopState) (o : Obs) :
    Except Unit (TickResult LoopState) :=
  match o with
  | .absent =>
      .ok ⟨{ s with monitoringState := .FILE_NOT_FOUND }, [.FILE_NOT_FOUND], false⟩
  | .vanished => .error ()
  | .present t =>
      if s.changeDetected = false then
        if s.orgTime < t then
          .ok ⟨{ s with changeDetected := true, orgTime := t, stableChecks := 0 }, [], false⟩
        else
          .ok ⟨s, [], false⟩
      else if s.orgTime < t then
        .ok ⟨{ s with orgTime := t, stableChecks := 0 }, [], false⟩
      else if 3 ≤ s.stableChecks + 1 ∧ t ≠ s.lastReported then
        .ok ⟨{ s with lastReported := t, stableChecks := 0, changeDetected := false, monitoringState := .MONITORING },
             [.FILE_CHANGED, .MONITORING], callbackSet⟩
      else
        .ok ⟨{ s with stableChecks := s.stableChecks + 1 }, [], false⟩

/-- One iteration body of the prior `monitor_loop` revision
(`monitorfile.cpp` lines 395-437), same conventions as
`monitorLoopTick`. -/
def monitorLoopTickOld (callbackSet : Bool) (s : LoopStateOld) (o : Obs) :
    Except Unit (TickResult LoopStateOld) :=
  match o with
  | .absent =>
      .ok ⟨{ s with monitoringState := .FILE_NOT_FOUND }, [.FILE_NOT_FOUND], false⟩
  | .vanished => .error ()
  | .present t =>
      if s.firstCheckDone = false ∧ s.orgTime < t then
        .ok ⟨{ s with firstCheckDone := true, orgTime := t }, [], false⟩
      else
        let s1 := if s.orgTime < t then { s with stableChecks := 0, orgTime := t }
                  else { s with stableChecks := s.stableChecks + 1 }
        if 3 ≤ s1.stableChecks ∧ t ≠ s1.lastReported then
          .ok ⟨{ s1 with lastReported := t, stableChecks := 0, monitoringState := .MONITORING },
               [.FILE_CHANGED, .MONITORING], callbackSet⟩
        else
          .ok ⟨s1, [], false⟩

/-- Loop state at entry of the current `monitor_loop` (lines 171-178) when
`filemon` recorded origin time `t0`: `last_reported_time` is initialized
from `org_time.value()`, `change_detected` is `false`, `stable_checks` is
reset to `0`, and `filemon` stored `MONITORING` just before spawning. -/
def loopInit (t0 : Nat) : LoopState :=
  ⟨t0, t0, false, 0, .MONITORING⟩

/-- Loop state at entry of the prior `monitor_loop` revision (lines
383-385): `last_reported_time` is default-constructed (the epoch, `0`),
`first_check_done` is `false`, `stable_checks` is `0` from `filemon`. -/
def loopInitOld (t0 : Nat) : LoopStateOld :=
  ⟨t0, 0, false, 0, .MONITORING⟩

/-- Run the current `monitor_loop` body over a list of per-poll
observations, accumulating the `monitoring_state.store` calls and whether
the callback was ever invoked; stops with `Except.error` as soon as an
iteration raises. -/
def runLoop (callbackSet : Bool) (s : LoopState) :
    List Obs → Except Unit (LoopState × List MonitorState × Bool)
  | [] => .ok (s, [], false)
  | o :: rest =>
    match monitorLoopTick callbackSet s o with
    | .error e => .error e
    | .ok r =>
      match runLoop callbackSet r.state rest with
      | .error e => .error e
      | .ok (s2, sts, inv) => .ok (s2, r.stores ++ sts, r.callbackInvoked || inv)

/-- Run the prior revision's `monitor_loop` body over a list of per-poll
observations, same conventions as `runLoop`. -/
def runLoopOld (callbackSet : Bool) (s : LoopStateOld) :
    List Obs → Except Unit (LoopStateOld × List MonitorState × Bool)
  | [] => .ok (s, [], false)
  | o :: rest =>
    match monitorLoopTickOld callbackSet s o with
    | .error e => .error e
    | .ok r =>
      match runLoopOld callbackSet r.state rest with
      | .error e => .error e
      | .ok (s2, sts, inv) => .ok (s2, r.stores ++ sts, r.callbackInvoked || inv)

/-- Control-surface state of a `MonitorFile` object (the members of the
class in `monitorfile.hpp`): the path, the recorded origin time
(`std::optional`), whether `monitoring_thread` is joinable, the atomic
`stop_monitoring` flag, the atomic `monitoring_state`, the registered
callback (modelled by an identity tag, `none` when null), and
`stable_checks`. -/
structure Watcher where
  fileName : String
  orgTime : Option Nat
  threadRunning : Bool
  stopMonitoring : Bool
  monitoringState : MonitorState
  callback : Option Nat
  stableChecks : Nat
deriving DecidableEq, Repr

/-- The `MonitorFile` constructor (`monitorfile.cpp` lines 18-23):
`stop_monitoring = false`, `monitoring_state = NOT_MONITORING`, no thread,
no callback, `stable_checks = 0`. -/
def initWatcher : Watcher :=
  ⟨"", none, false, false, .NOT_MONITORING, none, 0⟩

/-- `MonitorFile::get_state` (`monitorfile.cpp` lines 149-153): a snapshot
read of `monitoring_state` under a shared lock. -/
def get_state (w : Watcher) : MonitorState :=
  w.monitoringState

/-- Outcome of `MonitorFile::stop` (`monitorfile.cpp` lines 111-130):
the watcher afterwards, whether this call won the compare-exchange on
`stop_monitoring` (and so performed the `NOT_MONITORING` store and the
`cv.notify_all`), and whether it joined the monitoring thread. -/
structure StopResult where
  watcher : Watcher
  didWork : Bool
  didJoin : Bool
deriving DecidableEq, Repr

/-- `MonitorFile::stop`, called by a thread that does not hold the
object's `shared_mutex`: if `stop_monitoring.compare_exchange_strong`
fails (the flag was already `true`) the call returns immediately;
otherwise it stores `NOT_MONITORING`, notifies the condition variable,
and joins the monitoring thread if it is joinable. -/
def stop (w : Watcher) : StopResult :=
  if w.stopMonitoring then
    ⟨w, false, false⟩
  else
    ⟨{ w with stopMonitoring := true, monitoringState := .NOT_MONITORING, threadRunning := false },
     true, w.threadRunning⟩

/-- `n` sequential calls to `stop` on the same object; returns the final
watcher, how many calls performed the work (won the compare-exchange) and
how many performed a join. -/
def stopSeq : Watcher → Nat → Watcher × Nat × Nat
  | w, 0 => (w, 0, 0)
  | w, n + 1 =>
    let r := stop w
    let rest := stopSeq r.watcher n
    (rest.1, (if r.didWork then 1 else 0) + rest.2.1, (if r.didJoin then 1 else 0) + rest.2.2)

/-- Ways a call to `MonitorFile::filemon` can fail to return:
  * `deadlock`: `filemon` holds the object's non-recursive `shared_mutex`
    exclusively and calls `stop`, whose compare-exchange succeeds and
    which then constructs a second `std::unique_lock` on the same mutex
    from the same thread — undefined behavior (self-deadlock; and the
    subsequent join would wait on the loop thread, which needs that
    mutex);
  * `terminate`: `filemon` move-assigns `monitoring_thread` while the old
    thread is still joinable, which calls `std::terminate`. -/
inductive FileMonErr where
  | deadlock
  | terminate
deriving DecidableEq, Repr

/-- `MonitorFile::filemon` (`monitorfile.cpp` lines 43-72).  The caller
acquires the `shared_mutex` exclusively; if `monitoring_thread` is
joinable, `stop()` is called while that lock is held (see `FileMonErr`).
Then `fs::exists(fileName)` is consulted via `env`: on `none` the state
becomes `FILE_NOT_FOUND` and `filemon` returns `FILE_NOT_FOUND` without
starting a loop; on `some t` it records `org_time = t`, resets
`stable_checks`, stores `MONITORING`, stores the callback only when the
argument is non-null, clears `stop_monitoring`, spawns the loop thread
and returns `MONITORING`. -/
def filemon (env : String → Option Nat) (w : Watcher) (name : String)
    (cbArg : Option Nat) : Except FileMonErr (MonitorState × Watcher) :=
  if w.threadRunning && !w.stopMonitoring then
    .error .deadlock
  else
    match env name with
    | none => .ok (.FILE_NOT_FOUND, { w with monitoringState := .FILE_NOT_FOUND })
    | some t =>
      if w.threadRunning then
        .error .terminate
      else
        .ok (.MONITORING,
          { w with fileName := name, orgTime := some t, stableChecks := 0, monitoringState := .MONITORING, callback := if cbArg.isSome then cbArg else w.callback, stopMonitoring := false, threadRunning := true })

end MonitorFile

namespace LegacyMonitor

/-- State of the legacy synchronous `MonitorFile` variant (header-only,
members `file_name`, `org_time`, `new_time`). -/
structure State where
  fileName : String
  orgTime : Nat
  newTime : Nat
deriving DecidableEq, Repr

/-- Legacy `MonitorFile::check_file`: raises `std::runtime_error` when the
file no longer exists (`o = none`), otherwise sets `new_time` to the
file's last-write time. -/
def check_file (o : Option Nat) (s : State) : Except Unit State :=
  match o with
  | none => .error ()
  | some t => .ok { s with newTime := t }

/-- Legacy `MonitorFile::changed`: calls `check_file`, then returns `true`
and advances `org_time` to `new_time` exactly when `new_time > org_time`,
else returns `false`.  `o` is the poll's filesystem view, as in
`check_file`. -/
def changed (o : Option Nat) (s : State) : Except Unit (Bool × State) :=
  (check_file o s).map fun s1 =>
    if s1.orgTime < s1.newTime then (true, { s1 with orgTime := s1.newTime })
    else (false, s1)

/-- Two consecutive calls to the legacy `changed` with no intervening
write (both observe the same last-write time `t`): `true` when both calls
returned `true`. -/
def bothChangedNoWrite (t : Nat) (s : State) : Bool :=
  match changed (some t) s with
  | .ok (b1, s1) =>
    match changed (some t) s1 with
    | .ok (b2, _) => b1 && b2
    | .error _ => false
  | .error _ => false

end LegacyMonitor

namespace MonitorFile

/-- A poll of the current loop at its entry state that observes the origin
timestamp again is a no-op: no store, no callback, state unchanged. -/
theorem tick_loopInit_noop (cb : Bool) (t0 : Nat) :
    monitorLoopTick cb (loopInit t0) (.present t0) = .ok ⟨loopInit t0, [], false⟩ := by
  simp [monitorLoopTick, loopInit]

/-- Running the current loop from its entry state over any number of
polls that all observe the origin timestamp performs no store and never
invokes the callback. -/
theorem runLoop_loopInit_noop (cb : Bool) (t0 n : Nat) :
    runLoop cb (loopInit t0) (List.replicate n (.present t0)) = .ok (loopInit t0, [], false) := by
  induction n with
  | zero => rfl
  | succ k ih => simp [List.replicate_succ, runLoop, tick_loopInit_noop, ih]

/-- The prior loop revision default-initialized `last_reported_time`
(the epoch); with an origin time different from the epoch it reports a
change after three unchanged polls even though the file was never
written.  The current revision initializes `last_reported_time` from
`org_time` precisely to rule this out (its comment at lines 172-173). -/
theorem runLoopOld_spurious_first_event :
    runLoopOld true (loopInitOld 1) (List.replicate 3 (.present 1)) =
      .ok (⟨1, 1, false, 0, .MONITORING⟩, [.FILE_CHANGED, .MONITORING], true) := by
  rfl

/-- After any call to `stop`, the `stop_monitoring` flag is set. -/
theorem stop_flag_set (w : Watcher) : (stop w).watcher.stopMonitoring = true := by
  by_cases h : w.stopMonitoring <;> simp [stop, h]

/-- Once the `stop_monitoring` flag is set, any number of further `stop`
calls change nothing and perform no work and no join. -/
theorem stopSeq_stopped (w : Watcher) (h : w.stopMonitoring = true) (n : Nat) :
    stopSeq w n = (w, 0, 0) := by
  induction n with
  | zero => rfl
  | succ k ih => simp [stopSeq, stop, h, ih]

end MonitorFile

namespace MonitorFile

/-- Claim C5: the spec requires that a file vanishing between the loop's
existence check and its timestamp read be treated as "file not found" for
that poll and never be fatal; in the code, `fs::last_write_time` runs
with no try/catch after a 100 ms sleep that follows the `fs::exists`
check, so in both loop revisions that poll raises
`std::filesystem::filesystem_error`, which propagates out of
`monitor_loop` (fatal to the loop: on a `std::thread` it reaches
`std::terminate`).  The theorem evaluates both loop bodies at the racing
observation. -/
theorem vanish_race_raises (cb : Bool) (s : LoopState) (sOld : LoopStateOld) :
    monitorLoopTick cb s .vanished = .error () ∧
    monitorLoopTickOld cb sOld .vanished = .error () :=
  ⟨rfl, rfl⟩

/-- Claim C6: in both loop revisions, a poll tick on which the monitored
file does not exist stores `FILE_NOT_FOUND`, leaves the debounce counter
(`stable_checks`) and all other state untouched, and yields `Except.ok`
(the `continue`), so the loop proceeds to the next poll instead of
terminating and can recover if the file reappears. -/
theorem absent_poll_spec (cb : Bool) (s : LoopState) (sOld : LoopStateOld) :
    monitorLoopTick cb s .absent =
      .ok ⟨{ s with monitoringState := .FILE_NOT_FOUND }, [.FILE_NOT_FOUND], false⟩ ∧
    monitorLoopTickOld cb sOld .absent =
      .ok ⟨{ sOld with monitoringState := .FILE_NOT_FOUND }, [.FILE_NOT_FOUND], false⟩ :=
  ⟨rfl, rfl⟩

/-- Claim C1: on a poll where the file exists and the observed timestamp
equals the current origin baseline, the debounce counter is incremented,
and the change is confirmed exactly when the incremented counter reaches
the stability threshold of 3 and the timestamp differs from
`last_reported_time`; on confirmation `last_reported_time` becomes that
timestamp, the loop stores `FILE_CHANGED`, invokes the callback if one is
set, stores `MONITORING`, and resets the counter to 0.  Stated for the
current loop revision in its pending state (`change_detected = true`, the
context of the spec's rule; in its idle state that revision ignores an
unchanged timestamp), and for the prior loop revision unconditionally. -/
theorem pending_stable_poll_confirms (cb : Bool) (s : LoopState) (sOld : LoopStateOld)
    (h : s.changeDetected = true) :
    monitorLoopTick cb s (.present s.orgTime) =
      (if 3 ≤ s.stableChecks + 1 ∧ s.orgTime ≠ s.lastReported then
        .ok ⟨{ s with lastReported := s.orgTime, stableChecks := 0, changeDetected := false, monitoringState := .MONITORING },
             [.FILE_CHANGED, .MONITORING], cb⟩
      else
        .ok ⟨{ s with stableChecks := s.stableChecks + 1 }, [], false⟩) ∧
    monitorLoopTickOld cb sOld (.present sOld.orgTime) =
      (if 3 ≤ sOld.stableChecks + 1 ∧ sOld.orgTime ≠ sOld.lastReported then
        .ok ⟨{ sOld with lastReported := sOld.orgTime, stableChecks := 0, monitoringState := .MONITORING },
             [.FILE_CHANGED, .MONITORING], cb⟩
      else
        .ok ⟨{ sOld with stableChecks := sOld.stableChecks + 1 }, [], false⟩) := by
  constructor
  · simp [monitorLoopTick, h]
  · simp [monitorLoopTickOld]

/-- Witness for C1 at a concrete pending state with two stable polls
already counted: the third stable poll confirms the change. -/
theorem pending_stable_poll_confirms_witness :
    monitorLoopTick true ⟨5, 0, true, 2, .MONITORING⟩ (.present 5) =
      .ok ⟨⟨5, 5, false, 0, .MONITORING⟩, [.FILE_CHANGED, .MONITORING], true⟩ ∧
    monitorLoopTickOld true ⟨5, 0, false, 2, .MONITORING⟩ (.present 5) =
      .ok ⟨⟨5, 5, false, 0, .MONITORING⟩, [.FILE_CHANGED, .MONITORING], true⟩ := by
  have h := pending_stable_poll_confirms true ⟨5, 0, true, 2, .MONITORING⟩
    ⟨5, 0, false, 2, .MONITORING⟩ rfl
  exact ⟨h.1.trans rfl, h.2.trans rfl⟩

/-- Claim C2: starting from a fresh `MonitorFile`, a `filemon` call that
finds the file (origin time `t0`) returns `MONITORING` and stores
`MONITORING`, and a run of the current loop in which every poll again
observes `t0` (no write ever occurs) performs no
`monitoring_state.store` at all — so the state stays `MONITORING` on
every poll — and never invokes the callback. -/
theorem no_write_run_stays_monitoring (env : String → Option Nat) (name : String)
    (cbArg : Option Nat) (cb : Bool) (t0 n : Nat) (h : env name = some t0) :
    filemon env initWatcher name cbArg =
      .ok (.MONITORING, ⟨name, some t0, true, false, .MONITORING, cbArg, 0⟩) ∧
    runLoop cb (loopInit t0) (List.replicate n (.present t0)) =
      .ok (loopInit t0, [], false) := by
  constructor
  · cases cbArg <;> simp [filemon, initWatcher, h]
  · exact runLoop_loopInit_noop cb t0 n

/-- Witness for C2: a concrete environment and a four-poll run. -/
theorem no_write_run_stays_monitoring_witness :
    filemon (fun _ => some 4) initWatcher "a" none =
      .ok (.MONITORING, ⟨"a", some 4, true, false, .MONITORING, none, 0⟩) ∧
    runLoop true (loopInit 4) (List.replicate 4 (.present 4)) =
      .ok (loopInit 4, [], false) :=
  no_write_run_stays_monitoring (fun _ => some 4) "a" none true 4 4 rfl

/-- Claim C3: `filemon` on a path that does not exist stores and returns
`FILE_NOT_FOUND`, `get_state` then reads `FILE_NOT_FOUND`, no monitoring
thread is started, and a subsequent `stop` performs no join (it returns
after the flag transition and notify without any thread to wait for). -/
theorem filemon_missing_file_spec (env : String → Option Nat) (name : String)
    (cbArg : Option Nat) (w : Watcher) (hw : w.threadRunning = false)
    (h : env name = none) :
    filemon env w name cbArg =
      .ok (.FILE_NOT_FOUND, { w with monitoringState := .FILE_NOT_FOUND }) ∧
    get_state { w with monitoringState := .FILE_NOT_FOUND } = .FILE_NOT_FOUND ∧
    ({ w with monitoringState := .FILE_NOT_FOUND } : Watcher).threadRunning = false ∧
    (stop { w with monitoringState := .FILE_NOT_FOUND }).didJoin = false := by
  refine ⟨?_, rfl, hw, ?_⟩
  · simp [filemon, hw, h]
  · by_cases hs : w.stopMonitoring <;> simp [stop, hs, hw]

/-- Witness for C3 on a fresh watcher and an empty filesystem. -/
theorem filemon_missing_file_spec_witness :
    filemon (fun _ => none) initWatcher "a" none =
      .ok (.FILE_NOT_FOUND, { initWatcher with monitoringState := .FILE_NOT_FOUND }) ∧
    get_state { initWatcher with monitoringState := .FILE_NOT_FOUND } = .FILE_NOT_FOUND ∧
    ({ initWatcher with monitoringState := .FILE_NOT_FOUND } : Watcher).threadRunning = false ∧
    (stop { initWatcher with monitoringState := .FILE_NOT_FOUND }).didJoin = false :=
  filemon_missing_file_spec (fun _ => none) "a" none initWatcher rfl rfl

/-- Claim C4: `stop` is idempotent.  A call performs the
`NOT_MONITORING` store and notify exactly when it wins the
compare-exchange on `stop_monitoring` (the flag was still `false`), joins
exactly when it additionally has a thread to join, a second call on the
result changes nothing, and over any number of sequential calls the work
and the join each happen at most once. -/
theorem stop_idempotent_spec (w : Watcher) (n : Nat) :
    (stop w).didWork = !w.stopMonitoring ∧
    (stop w).didJoin = (!w.stopMonitoring && w.threadRunning) ∧
    stop (stop w).watcher = ⟨(stop w).watcher, false, false⟩ ∧
    (stopSeq w n).2.1 ≤ 1 ∧
    (stopSeq w n).2.2 ≤ 1 := by
  by_cases h : w.stopMonitoring
  · simp [stop, h, stopSeq_stopped w h n]
  · refine ⟨by simp [stop, h], by simp [stop, h], by simp [stop, h], ?_, ?_⟩ <;>
    · cases n with
      | zero => simp [stopSeq]
      | succ k =>
        have hst := stopSeq_stopped
          { w with stopMonitoring := true, monitoringState := .NOT_MONITORING, threadRunning := false }
          rfl k
        simp [stopSeq, stop, h, hst]
        all_goals split <;> simp

end MonitorFile

namespace LegacyMonitor

/-- Claim C10: the legacy synchronous `changed()` returns `true` exactly
when the observed last-write time is strictly greater than the stored
baseline `org_time`, updating the baseline to the observed time exactly
on a `true` return; consequently two consecutive `changed()` calls that
observe the same last-write time (no intervening write) never both
return `true`. -/
theorem changed_spec (s : State) (t : Nat) :
    changed (some t) s =
      .ok (if s.orgTime < t then (true, ⟨s.fileName, t, t⟩)
           else (false, ⟨s.fileName, s.orgTime, t⟩)) ∧
    bothChangedNoWrite t s = false := by
  constructor
  · by_cases h : s.orgTime < t <;> simp [changed, check_file, Except.map, h]
  · by_cases h : s.orgTime < t <;> simp [bothChangedNoWrite, changed, check_file, Except.map, h]

end LegacyMonitor

namespace MonitorFile

/-- Restricted form of `filemon` used for the callback-frame claim: a
call that returns normally with `cbArg = none` leaves the stored callback
exactly as it was. -/
theorem filemon_none_keeps_callback (env : String → Option Nat) (name : String)
    (w : Watcher) (st : MonitorState) (w2 : Watcher)
    (hok : filemon env w name none = .ok (st, w2)) :
    w2.callback = w.callback := by
  by_cases hb : (w.threadRunning && !w.stopMonitoring) = true
  · simp [filemon, hb] at hok
  · cases henv : env name with
    | none =>
      simp [filemon, hb, henv] at hok
      simp [← hok.2]
    | some t =>
      by_cases ht : w.threadRunning = true
      · have hs : w.stopMonitoring = true := by simpa [ht] using hb
        simp [filemon, henv, ht, hs] at hok
      · simp [filemon, hb, henv, ht] at hok
        simp [← hok.2]

/-- Claim C9: for every stored callback, a `filemon` call that supplies
no callback (null `std::function`) leaves the previously registered
callback unchanged, and the stored callback differs after a returning
`filemon` call only when a non-null callback argument was supplied. -/
theorem filemon_callback_frame (env : String → Option Nat) (name : String) (w : Watcher) :
    (∀ st w2, filemon env w name none = .ok (st, w2) → w2.callback = w.callback) ∧
    (∀ cbArg st w2, filemon env w name cbArg = .ok (st, w2) →
        w2.callback ≠ w.callback → cbArg.isSome = true) := by
  refine ⟨fun st w2 hok => filemon_none_keeps_callback env name w st w2 hok, ?_⟩
  intro cbArg st w2 hok hne
  cases cbArg with
  | some k => rfl
  | none => exact absurd (filemon_none_keeps_callback env name w st w2 hok) hne

/-- Witness for C9: on a fresh watcher the callback (null) is unchanged
by a `filemon` call that supplies none. -/
theorem filemon_callback_frame_witness :
    (⟨"a", some 7, true, false, .MONITORING, none, 0⟩ : Watcher).callback =
      initWatcher.callback :=
  (filemon_callback_frame (fun _ => some 7) "a" initWatcher).1 .MONITORING
    ⟨"a", some 7, true, false, .MONITORING, none, 0⟩ rfl

/-- Claim C7: the spec says a `filemon` call while a loop is already
running stops the prior loop first, blocking until it has exited, then
starts the new loop.  In the code, `filemon` constructs a
`std::unique_lock` on the object's `shared_mutex` and only then calls
`stop()`; when the running loop's stop flag is still clear, `stop` wins
the compare-exchange and then constructs another `std::unique_lock` on
the same non-recursive mutex from the same thread — undefined behavior
(in practice a self-deadlock; the join that follows would also wait
forever on the loop thread, which needs that mutex to leave its wait).
The prior loop is never stopped and the new monitoring never starts.
The theorem evaluates `filemon` at such a running watcher. -/
theorem filemon_restart_deadlocks (env : String → Option Nat) (name : String)
    (cbArg : Option Nat) (w : Watcher) (h1 : w.threadRunning = true)
    (h2 : w.stopMonitoring = false) :
    filemon env w name cbArg = .error .deadlock := by
  simp [filemon, h1, h2]

/-- Witness for C7 at a concrete actively-monitoring watcher. -/
theorem filemon_restart_deadlocks_witness :
    filemon (fun _ => some 2) ⟨"a", some 1, true, false, .MONITORING, none, 0⟩ "b" none =
      .error .deadlock :=
  filemon_restart_deadlocks (fun _ => some 2) "b" none
    ⟨"a", some 1, true, false, .MONITORING, none, 0⟩ rfl rfl

/-- Claim C8: `filemon` on an existing file (when no loop is running, so
`stop` is skipped) records the file's modification time as the origin
baseline, resets the debounce counter to 0, stores `MONITORING`, stores
the callback when one is given, clears the stop flag, spawns the
monitoring thread, and returns `MONITORING`. -/
theorem filemon_success_spec (env : String → Option Nat) (name : String)
    (cbArg : Option Nat) (w : Watcher) (t : Nat) (hw : w.threadRunning = false)
    (h : env name = some t) :
    filemon env w name cbArg =
      .ok (.MONITORING,
        { w with fileName := name, orgTime := some t, stableChecks := 0, monitoringState := .MONITORING, callback := if cbArg.isSome then cbArg else w.callback, stopMonitoring := false, threadRunning := true }) := by
  simp [filemon, hw, h]

/-- Witness for C8 on a fresh watcher with a present file of
modification time 9 and a supplied callback. -/
theorem filemon_success_spec_witness :
    filemon (fun _ => some 9) initWatcher "a" (some 1) =
      .ok (.MONITORING, ⟨"a", some 9, true, false, .MONITORING, some 1, 0⟩) :=
  (filemon_success_spec (fun _ => some 9) "a" (some 1) initWatcher 9 rfl rfl).trans rfl

end MonitorFile
